import Mathlib

/-!
# Verification of the birdfeeder process-supervision and streaming core

Shallow embedding of `src/pi/PythonScripts/master_control.py` (the process
supervisor: `on_doc_snapshot`, `check_processes`, the per-service start/stop
wrappers and `stop_process`) and of `src/pi/PythonScripts/camera_server.py`
(`LatestFrame`, `Streamer.send_packet`, `Streamer.take_snapshot`).

Modelling conventions:
* A child process handle (`subprocess.Popen`) is an abstract pid (`Nat`);
  the globals `camera_server_process` etc. are `Option Nat` fields.
* Process spawning may fail (`start_process` returns `None`): every start
  site takes an oracle `Option Nat` — `some pid` for a successful spawn,
  `none` for a failed one.
* Liveness (`Popen.poll`) is an environment function `alive : Nat → Bool`
  supplied to each crash-check invocation.
* Stopping may fail (`stop_process` returns `False` on a non-ESRCH kill
  error or a pid-file removal failure): every stop site takes a `Bool`
  oracle for that return value, and — as in the source's
  `if stop_process(...):` guards — the handle and flag are cleared only
  when it is `true`.  The detailed signal/pid-file protocol behind that
  return value is modelled separately (`stop_process` below).
* Byte strings are `List Nat` (each entry a byte value).
-/

namespace Birdfeeder

/-- The supervisor's global mutable state in `master_control.py`:
the three process handles and the four tracking flags. -/
structure SupState where
  cameraProc : Option Nat
  updaterProc : Option Nat
  motionProc : Option Nat
  streamingEnabled : Bool
  appOpen : Bool
  motionEnabled : Bool
  pausedByStream : Bool
  deriving Repr, DecidableEq

/-- Embeds `is_process_alive`: `None` handles are dead, otherwise poll the OS. -/
def is_process_alive (alive : Nat → Bool) : Option Nat → Bool
  | none => false
  | some pid => alive pid

/-- Embeds `start_camera_server`: assign the spawn result to the handle; set the
flag only when the spawn succeeded (`if camera_server_process:`). -/
def start_camera_server (spawn : Option Nat) (s : SupState) : SupState :=
  match spawn with
  | some p => { s with cameraProc := some p, streamingEnabled := true }
  | none => { s with cameraProc := none }

/-- Embeds `stop_camera_server`: clear handle and flag only when
`stop_process` succeeded (`if stop_process(...):`); `ok` is its return
value. -/
def stop_camera_server (ok : Bool) (s : SupState) : SupState :=
  if ok then { s with cameraProc := none, streamingEnabled := false }
  else s

/-- Embeds `start_system_updater`. -/
def start_system_updater (spawn : Option Nat) (s : SupState) : SupState :=
  match spawn with
  | some p => { s with updaterProc := some p, appOpen := true }
  | none => { s with updaterProc := none }

/-- Embeds `stop_system_updater`: handle and flag cleared only when
`stop_process` succeeded. -/
def stop_system_updater (ok : Bool) (s : SupState) : SupState :=
  if ok then { s with updaterProc := none, appOpen := false }
  else s

/-- Embeds `start_motion_capture`. -/
def start_motion_capture (spawn : Option Nat) (s : SupState) : SupState :=
  match spawn with
  | some p => { s with motionProc := some p, motionEnabled := true }
  | none => { s with motionProc := none }

/-- Embeds `stop_motion_capture`: handle and flag cleared only when
`stop_process` succeeded. -/
def stop_motion_capture (ok : Bool) (s : SupState) : SupState :=
  if ok then { s with motionProc := none, motionEnabled := false }
  else s

/-- The three managed services. -/
inductive Service
  | camera
  | updater
  | motion
  deriving Repr, DecidableEq

/-- Embeds `check_processes`, instrumented with the list of restart attempts it
issues.  Each branch restarts its service when the tracking flag is set but
the handle polls dead; the motion branch additionally requires
`not motion_capture_paused_by_stream`. -/
def check_processes_log (alive : Nat → Bool) (spc spu spm : Option Nat)
    (s : SupState) : SupState × List Service :=
  let r1 :=
    if s.streamingEnabled && !(is_process_alive alive s.cameraProc) then
      (start_camera_server spc s, [Service.camera])
    else (s, ([] : List Service))
  let r2 :=
    if r1.1.appOpen && !(is_process_alive alive r1.1.updaterProc) then
      (start_system_updater spu r1.1, r1.2 ++ [Service.updater])
    else r1
  if r2.1.motionEnabled && !(is_process_alive alive r2.1.motionProc) then
    if !r2.1.pausedByStream then
      (start_motion_capture spm r2.1, r2.2 ++ [Service.motion])
    else r2
  else r2

/-- Embeds `check_processes`: the state transition alone. -/
def check_processes (alive : Nat → Bool) (spc spu spm : Option Nat)
    (s : SupState) : SupState :=
  (check_processes_log alive spc spu spm s).1

/-- A changed document delivered to `on_doc_snapshot`: the matched path
together with the boolean field the handler reads from it. -/
inductive Doc
  | streaming (enabled : Bool)
  | appOpen (isOpen : Bool)
  | settings (motionEnabled : Bool)
  | other
  deriving Repr, DecidableEq

/-- Handling of one document inside `on_doc_snapshot`'s loop.  `spawn` is
the result of any `start_process` the branch performs and `stopOk` the
return value of any `stop_process` it performs (each branch calls at most
one of each).  Returns the new state and whether the handler executed
`return` (which aborts the whole callback invocation, not just this
document). -/
def handle_doc (d : Doc) (spawn : Option Nat) (stopOk : Bool)
    (s : SupState) : SupState × Bool :=
  match d with
  | .streaming enabled =>
    if enabled && !s.streamingEnabled then
      -- stream activated: pause motion capture if running, then start camera
      let s1 :=
        if s.motionEnabled then
          { stop_motion_capture stopOk s with pausedByStream := true }
        else { s with pausedByStream := false }
      (start_camera_server spawn s1, false)
    else if !enabled && s.streamingEnabled then
      -- stream deactivated: stop camera, resume motion capture if paused
      let s1 := stop_camera_server stopOk s
      if s1.pausedByStream then
        ({ start_motion_capture spawn s1 with pausedByStream := false }, false)
      else (s1, false)
    else (s, false)
  | .appOpen isOpen =>
    if isOpen && !s.appOpen then (start_system_updater spawn s, false)
    else if !isOpen && s.appOpen then (stop_system_updater stopOk s, false)
    else (s, false)
  | .settings me =>
    if me && !s.motionEnabled then
      if s.streamingEnabled then (s, true)   -- refuse and return from callback
      else (start_motion_capture spawn s, false)
    else if !me && s.motionEnabled then
      ({ stop_motion_capture stopOk s with pausedByStream := false }, false)
    else (s, false)
  | .other => (s, false)

/-- Embeds `on_doc_snapshot`: fold over the changed documents, stopping early when
a handler executed `return`.  Each document carries its spawn and
stop-success oracles. -/
def on_doc_snapshot : List (Doc × Option Nat × Bool) → SupState → SupState
  | [], s => s
  | (d, sp, ok) :: rest, s =>
    let r := handle_doc d sp ok s
    if r.2 then r.1 else on_doc_snapshot rest r.1

/-- One supervisor event: a Firestore snapshot callback or a periodic
crash-check. -/
inductive Event
  | snapshot (docs : List (Doc × Option Nat × Bool))
  | check (alive : Nat → Bool) (spc spu spm : Option Nat)

/-- Apply one event to the supervisor state. -/
def step : Event → SupState → SupState
  | .snapshot docs, s => on_doc_snapshot docs s
  | .check alive spc spu spm, s => check_processes alive spc spu spm s

/-- Run a sequence of events. -/
def run (evs : List Event) (s : SupState) : SupState :=
  evs.foldl (fun t e => step e t) s

/-- The supervisor's start state: all services stopped, all flags false
(`master_control.py` stops every service before listening). -/
def initState : SupState :=
  { cameraProc := none, updaterProc := none, motionProc := none
    streamingEnabled := false, appOpen := false, motionEnabled := false
    pausedByStream := false }

/-- A state is reachable when some event sequence leads to it from the
start state. -/
def Reachable (s : SupState) : Prop := ∃ evs, run evs initState = s

/-- All `stop_process` calls of an event succeed: every document of a
snapshot carries a `true` stop oracle (a crash check performs no stops). -/
def EventStopsOk : Event → Prop
  | .snapshot docs => docs.all (fun x => x.2.2) = true
  | .check _ _ _ _ => True

instance : (e : Event) → Decidable (EventStopsOk e)
  | .snapshot docs =>
    inferInstanceAs (Decidable (docs.all (fun x => x.2.2) = true))
  | .check _ _ _ _ => inferInstanceAs (Decidable True)

/-- A state reachable by a run during which every `stop_process` call
succeeded. -/
def ReachableWithStopsOk (s : SupState) : Prop :=
  ∃ evs, (∀ e ∈ evs, EventStopsOk e) ∧ run evs initState = s

/-! ## The `stop_process` signal protocol (`master_control.py`, 175-235) -/

/-- Outcome of the `os.kill(pid, SIGTERM)` call inside `stop_process`. -/
inductive KillResult
  | ok      -- signal delivered
  | esrch   -- OSError with errno 3: no such process
  | err     -- any other OSError
  deriving Repr, DecidableEq

/-- Environment facts `stop_process` consults: the SIGTERM outcome, whether
the target still runs after the 1 s grace period, and the pid file. -/
structure StopEnv where
  sigtermResult : KillResult
  stillAliveAfterTerm : Bool
  pidFileExists : Bool
  pidFilePid : Option Nat   -- pid parsed from the file, `none` if unreadable
  removeOk : Bool           -- whether `os.remove(pid_file)` succeeds
  deriving Repr, DecidableEq

/-- Observable actions `stop_process` performs, in order. -/
inductive StopAct
  | sigterm (pid : Nat)
  | sleep1                  -- the 1 second grace wait
  | sigkill (pid : Nat)
  | removePidFile
  deriving Repr, DecidableEq

/-- The pid-file removal epilogue of `stop_process` (lines 227-235). -/
def remove_pid_file (env : StopEnv) (acts : List StopAct) :
    Bool × List StopAct :=
  if env.pidFileExists then
    if env.removeOk then (true, acts ++ [StopAct.removePidFile])
    else (false, acts)
  else (true, acts)

/-- Embeds `stop_process(process, pid_file)`: returns the success flag together
with the trace of actions taken.  SIGTERM is sent first; after the 1 s
sleep, SIGKILL is sent only if the target is still running (SIGKILL errors
are swallowed); an ESRCH failure of SIGTERM falls through to pid-file
cleanup; any other kill error returns `False` immediately. -/
def stop_process (process : Option Nat) (env : StopEnv) :
    Bool × List StopAct :=
  if process = none && !env.pidFileExists then (true, [])
  else
    let pid? :=
      match process with
      | some p => some p
      | none => if env.pidFileExists then env.pidFilePid else none
    match pid? with
    | none => remove_pid_file env []
    | some pid =>
      match env.sigtermResult with
      | .ok =>
        let acts := [StopAct.sigterm pid, StopAct.sleep1] ++
          (if env.stillAliveAfterTerm then [StopAct.sigkill pid] else [])
        remove_pid_file env acts
      | .esrch => remove_pid_file env [StopAct.sigterm pid]
      | .err => (false, [StopAct.sigterm pid])

/-! ## `LatestFrame` (`camera_server.py`, 124-147) -/

/-- Thread-safe holder for the most recent JPEG frame: a single nullable
slot (the condition variable carries no data). -/
structure LatestFrame where
  frame : Option (List Nat)
  deriving Repr, DecidableEq

/-- Embeds `LatestFrame.set`: replace the current frame (and notify waiters). -/
def LatestFrame.set (_s : LatestFrame) (data : List Nat) : LatestFrame :=
  { frame := some data }

/-- Embeds `LatestFrame.get`: return the current frame. -/
def LatestFrame.get (s : LatestFrame) : Option (List Nat) := s.frame

/-- The holder as constructed: empty slot. -/
def LatestFrame.empty : LatestFrame := { frame := none }

/-! ## The wire protocol (`camera_server.py`, 217-221) -/

/-- Embeds `struct.pack('<L', n)`: the four little-endian bytes of `n`. -/
def le32 (n : Nat) : List Nat :=
  [n % 256, n / 256 % 256, n / 65536 % 256, n / 16777216 % 256]

/-- Embeds `Streamer.send_packet`: 4-byte little-endian length, then the raw
payload bytes. -/
def send_packet (payload : List Nat) : List Nat :=
  le32 payload.length ++ payload

/-- Modelled from the spec: the peer-side decoder is not part of the Pi
sources; §6 specifies the stream as repeated frames
`[4-byte LE length][length bytes payload]`, so the peer reads a 4-byte
little-endian length `n` and then `n` payload bytes, returning the payload
and the remaining stream. -/
def decode_packet (stream : List Nat) : Option (List Nat × List Nat) :=
  match stream with
  | b0 :: b1 :: b2 :: b3 :: rest =>
    let n := b0 + 256 * b1 + 65536 * b2 + 16777216 * b3
    if n ≤ rest.length then some (rest.take n, rest.drop n) else none
  | _ => none

/-! ## `Streamer.take_snapshot` (`camera_server.py`, 266-298) -/

/-- Environment facts for one `take_snapshot` invocation: the capture
outcome (`none` when `capture_file` raised), Firebase availability, the
upload outcome (its errors are caught inside `upload_snapshot`), and
whether the confirmation send succeeds. -/
structure SnapEnv where
  captureResult : Option (List Nat)
  haveFirebase : Bool
  uploadOk : Bool
  sendOk : Bool
  deriving Repr, DecidableEq

/-- Observable actions of one `take_snapshot` invocation, in order. -/
inductive SnapAct
  | lockAcquire
  | captureAttempt
  | uploadAttempt (ok : Bool)
  | lockRelease
  | replySent (wire : List Nat)
  | replyFailedSwallowed
  deriving Repr, DecidableEq

/-- Whether the capture step succeeded: `capture_file` returned and the
data was nonempty (empty data raises `RuntimeError`, caught below). -/
def captureOk : Option (List Nat) → Bool
  | some d => !d.isEmpty
  | none => false

/-- Whether an action is the confirmation-reply step. -/
def isReplyAct : SnapAct → Bool
  | .replySent _ => true
  | .replyFailedSwallowed => true
  | _ => false

/-- Embeds `Streamer.take_snapshot(conn)` as its action trace: under the camera
lock, capture a high-res frame and (when Firebase is available and the
frame is nonempty) hand it to `upload_snapshot`, whose failures are caught
internally; `ok` reflects only the capture; after releasing the lock, send
one length-prefixed reply `'S'`/`'F'`, swallowing send failures. -/
def take_snapshot (env : SnapEnv) : List SnapAct :=
  let ok := captureOk env.captureResult
  let uploads :=
    if ok && env.haveFirebase then [SnapAct.uploadAttempt env.uploadOk]
    else []
  let payload : List Nat := if ok then [83] else [70]
  [SnapAct.lockAcquire, SnapAct.captureAttempt] ++ uploads ++
    [SnapAct.lockRelease] ++
    (if env.sendOk then [SnapAct.replySent (send_packet payload)]
     else [SnapAct.replyFailedSwallowed])

/-! ## Invariants of the supervisor state machine -/

/-- The inductive invariant, which holds along runs whose `stop_process`
calls all succeed: the streaming and motion-capture flags are never
simultaneously set, and a live handle implies its tracking flag (handles
are only installed by successful starts, which set the flag, and every
successful stop clears flag and handle together). -/
def Inv (s : SupState) : Prop :=
  (s.streamingEnabled = false ∨ s.motionEnabled = false)
  ∧ (s.cameraProc = none ∨ s.streamingEnabled = true)
  ∧ (s.motionProc = none ∨ s.motionEnabled = true)

theorem inv_initState : Inv initState := by
  simp [Inv, initState]

theorem handle_doc_inv (d : Doc) (sp : Option Nat) (s : SupState)
    (h : Inv s) : Inv (handle_doc d sp true s).1 := by
  obtain ⟨h1, h2, h3⟩ := h
  cases d <;> cases sp <;>
    first
      | exact ⟨h1, h2, h3⟩
      | (simp only [handle_doc, Inv, start_camera_server, stop_camera_server,
           start_system_updater, stop_system_updater, start_motion_capture,
           stop_motion_capture]
         split_ifs <;> simp_all)

theorem on_doc_snapshot_inv (docs : List (Doc × Option Nat × Bool))
    (s : SupState) (hok : docs.all (fun x => x.2.2) = true) (h : Inv s) :
    Inv (on_doc_snapshot docs s) := by
  induction docs generalizing s with
  | nil => exact h
  | cons dp rest ih =>
    obtain ⟨d, sp, ok⟩ := dp
    simp only [List.all_cons, Bool.and_eq_true] at hok
    obtain ⟨hd, hrest⟩ := hok
    subst hd
    simp only [on_doc_snapshot]
    split
    · exact handle_doc_inv d sp s h
    · exact ih _ hrest (handle_doc_inv d sp s h)

theorem check_processes_inv (alive : Nat → Bool) (spc spu spm : Option Nat)
    (s : SupState) (h : Inv s) :
    Inv (check_processes alive spc spu spm s) := by
  obtain ⟨h1, h2, h3⟩ := h
  cases spc <;> cases spu <;> cases spm <;>
    simp only [check_processes, check_processes_log, Inv,
      start_camera_server, start_system_updater, start_motion_capture] <;>
    split_ifs <;> simp_all

theorem step_inv (e : Event) (s : SupState) (he : EventStopsOk e)
    (h : Inv s) : Inv (step e s) := by
  cases e with
  | snapshot docs => exact on_doc_snapshot_inv docs s he h
  | check alive spc spu spm => exact check_processes_inv alive spc spu spm s h

theorem run_inv (evs : List Event) (s : SupState)
    (hok : ∀ e ∈ evs, EventStopsOk e) (h : Inv s) : Inv (run evs s) := by
  induction evs generalizing s with
  | nil => exact h
  | cons e rest ih =>
    exact ih _ (fun x hx => hok x (List.mem_cons_of_mem _ hx))
      (step_inv e s (hok e (List.mem_cons_self _ _)) h)

theorem reachable_inv (s : SupState) (h : ReachableWithStopsOk s) :
    Inv s := by
  obtain ⟨evs, hok, rfl⟩ := h
  exact run_inv evs initState hok inv_initState

/-! ## Crash-check characterization -/

/-- The tracking flag (desired state) of one service. -/
def desiredFlag : Service → SupState → Bool
  | .camera, s => s.streamingEnabled
  | .updater, s => s.appOpen
  | .motion, s => s.motionEnabled

/-- The process handle of one service. -/
def procOf : Service → SupState → Option Nat
  | .camera, s => s.cameraProc
  | .updater, s => s.updaterProc
  | .motion, s => s.motionProc

/-- Whether one crash-check invocation should restart a service: desired
running, handle polls dead, and (for motion capture only) not currently
paused by streaming. -/
def shouldRestart (alive : Nat → Bool) (svc : Service) (s : SupState) :
    Bool :=
  desiredFlag svc s && !(is_process_alive alive (procOf svc s)) &&
    (match svc with
     | .motion => !s.pausedByStream
     | _ => true)

/-- The restart log of one crash-check invocation, characterized on the
entry state: the three branches test conditions that the earlier restarts
of the same invocation do not disturb. -/
theorem check_processes_log_restarts (alive : Nat → Bool)
    (spc spu spm : Option Nat) (s : SupState) :
    (check_processes_log alive spc spu spm s).2 =
      (if s.streamingEnabled && !(is_process_alive alive s.cameraProc)
       then [Service.camera] else [])
      ++ (if s.appOpen && !(is_process_alive alive s.updaterProc)
          then [Service.updater] else [])
      ++ (if s.motionEnabled && !(is_process_alive alive s.motionProc)
            && !s.pausedByStream
          then [Service.motion] else []) := by
  cases spc <;> cases spu <;> cases spm <;>
    simp only [check_processes_log, start_camera_server,
      start_system_updater, start_motion_capture] <;>
    split_ifs <;> simp_all

/-- The state after one crash-check invocation: each dead desired-running
service's handle is replaced by its spawn result; every tracking flag and
the pause flag are left unchanged (a restart branch only fires when its
flag is already set, and a start never clears a flag). -/
theorem check_processes_state (alive : Nat → Bool)
    (spc spu spm : Option Nat) (s : SupState) :
    check_processes alive spc spu spm s =
      { s with
        cameraProc :=
          if s.streamingEnabled && !(is_process_alive alive s.cameraProc)
          then spc else s.cameraProc
        updaterProc :=
          if s.appOpen && !(is_process_alive alive s.updaterProc)
          then spu else s.updaterProc
        motionProc :=
          if s.motionEnabled && !(is_process_alive alive s.motionProc)
            && !s.pausedByStream
          then spm else s.motionProc } := by
  rcases s with ⟨cp, up, mp, se, ao, me, pb⟩
  cases spc <;> cases spu <;> cases spm <;>
    simp only [check_processes, check_processes_log, start_camera_server,
      start_system_updater, start_motion_capture] <;>
    split_ifs <;> simp_all

/-! ## Claim theorems -/

/-- C1 counterexample: the mutual-exclusion invariant is violated on a
program-reachable path with a failing `stop_process`: motion capture runs,
streaming is enabled (motion capture paused, camera started), then the
streaming disable's `stop_camera_server` fails — the camera handle and
flag are retained while the paused motion capture is restarted and the
pause flag cleared.  Both tracking flags are then set and both handles
installed at once. -/
theorem mutual_exclusion_counterexample :
    (run [Event.snapshot [(Doc.settings true, some 1, true)],
          Event.snapshot [(Doc.streaming true, some 2, true)],
          Event.snapshot [(Doc.streaming false, some 3, false)]]
        initState).streamingEnabled = true
    ∧ (run [Event.snapshot [(Doc.settings true, some 1, true)],
            Event.snapshot [(Doc.streaming true, some 2, true)],
            Event.snapshot [(Doc.streaming false, some 3, false)]]
          initState).motionEnabled = true
    ∧ (run [Event.snapshot [(Doc.settings true, some 1, true)],
            Event.snapshot [(Doc.streaming true, some 2, true)],
            Event.snapshot [(Doc.streaming false, some 3, false)]]
          initState).cameraProc = some 2
    ∧ (run [Event.snapshot [(Doc.settings true, some 1, true)],
            Event.snapshot [(Doc.streaming true, some 2, true)],
            Event.snapshot [(Doc.streaming false, some 3, false)]]
          initState).motionProc = some 3
    ∧ (run [Event.snapshot [(Doc.settings true, some 1, true)],
            Event.snapshot [(Doc.streaming true, some 2, true)],
            Event.snapshot [(Doc.streaming false, some 3, false)]]
          initState).pausedByStream = false := by
  decide

/-- C1 (amended): Mutual exclusion invariant, provided every
`stop_process` call of the run succeeds — for every sequence of
remote-change callback invocations and periodic crash-check invocations
starting from the initial state during which no stop fails, at no
reachable state are the streaming service and the motion-capture service
both in the running state at the same time: their tracking flags are
never both set, and their process handles are never both installed.  When
a stop fails (non-ESRCH kill error or pid-file removal failure), the
handle and flag are retained and both services can end up running at
once. -/
theorem mutual_exclusion_invariant (s : SupState)
    (h : ReachableWithStopsOk s) :
    ¬(s.streamingEnabled = true ∧ s.motionEnabled = true)
    ∧ ¬(s.cameraProc ≠ none ∧ s.motionProc ≠ none) := by
  obtain ⟨h1, h2, h3⟩ := reachable_inv s h
  constructor
  · rintro ⟨ha, hb⟩
    rcases h1 with h' | h' <;> simp_all
  · rintro ⟨ha, hb⟩
    rcases h2 with h' | h'
    · exact ha h'
    rcases h3 with h'' | h''
    · exact hb h''
    rcases h1 with h3 | h3 <;> simp_all

theorem mutual_exclusion_invariant_witness :
    let s := run [Event.snapshot [(Doc.settings true, some 1, true)],
                  Event.snapshot [(Doc.streaming true, some 2, true)]]
      initState
    ¬(s.streamingEnabled = true ∧ s.motionEnabled = true)
    ∧ ¬(s.cameraProc ≠ none ∧ s.motionProc ≠ none) :=
  mutual_exclusion_invariant _
    ⟨[Event.snapshot [(Doc.settings true, some 1, true)],
      Event.snapshot [(Doc.streaming true, some 2, true)]],
     by decide, rfl⟩

/-- C3: Crash-check behaviour — one crash-check invocation restarts each
service whose tracking flag is set but whose handle polls dead exactly
once, except a motion-capture service currently paused-by-conflict, which
is never restarted; and when every desired-running service polls alive the
invocation issues zero restarts — for every state of the three services. -/
theorem crash_check_restart_behaviour (alive : Nat → Bool)
    (spc spu spm : Option Nat) (s : SupState) (svc : Service) :
    ((check_processes_log alive spc spu spm s).2.count svc
       = if shouldRestart alive svc s then 1 else 0)
    ∧ ((∀ t : Service, desiredFlag t s = true →
          is_process_alive alive (procOf t s) = true) →
        (check_processes_log alive spc spu spm s).2 = []) := by
  constructor
  · rw [check_processes_log_restarts]
    cases svc <;>
      simp only [shouldRestart, desiredFlag, procOf, List.count_append] <;>
      split_ifs <;> simp_all [List.count_cons, List.count_nil]
  · intro hall
    have hc := hall Service.camera
    have hu := hall Service.updater
    have hm := hall Service.motion
    simp only [desiredFlag, procOf] at hc hu hm
    rw [check_processes_log_restarts]
    cases hsb : s.streamingEnabled <;> cases hab : s.appOpen <;>
      cases hmb : s.motionEnabled <;> simp_all

theorem crash_check_restart_behaviour_witness :
    let s : SupState :=
      { cameraProc := some 2, updaterProc := none, motionProc := some 5
        streamingEnabled := true, appOpen := false, motionEnabled := true
        pausedByStream := false }
    (∀ t : Service, desiredFlag t s = true →
        is_process_alive (fun _ => true) (procOf t s) = true)
    ∧ (check_processes_log (fun _ => true) none none none s).2 = [] :=
  ⟨by intro t; cases t <;> decide,
   (crash_check_restart_behaviour (fun _ => true) none none none _
      Service.camera).2 (by intro t; cases t <;> decide)⟩

/-- C7: Frame latest-wins — three `LatestFrame` writes with no intervening
read leave exactly the third payload in the slot, and in general a `get`
after any sequence of `set`s returns exactly the argument of the last
`set`. -/
theorem frame_latest_wins (s : LatestFrame) (w1 w2 w3 : List Nat)
    (ws : List (List Nat)) (w : List Nat) :
    (((s.set w1).set w2).set w3).get = some w3
    ∧ ((ws ++ [w]).foldl LatestFrame.set s).get = some w := by
  refine ⟨rfl, ?_⟩
  simp [List.foldl_append, LatestFrame.set, LatestFrame.get]

/-- C8: Protocol round-trip — for every payload of length below 2^32,
encoding it as `send_packet` does (4-byte little-endian length, then the
payload) and decoding the stream on the peer side yields back exactly the
original bytes, with nothing left over. -/
theorem protocol_round_trip (payload : List Nat)
    (h : payload.length < 4294967296) :
    decode_packet (send_packet payload) = some (payload, []) := by
  have hlen : payload.length % 256 + 256 * (payload.length / 256 % 256)
      + 65536 * (payload.length / 65536 % 256)
      + 16777216 * (payload.length / 16777216 % 256) = payload.length := by
    omega
  simp only [send_packet, le32, List.cons_append, List.nil_append,
    decode_packet, hlen]
  simp

theorem protocol_round_trip_witness :
    ([7, 8, 9] : List Nat).length < 4294967296
    ∧ decode_packet (send_packet [7, 8, 9]) = some ([7, 8, 9], []) :=
  ⟨by decide, protocol_round_trip [7, 8, 9] (by decide)⟩

/-- C10: when `on_doc_snapshot` refuses a motion-capture enable because
streaming is running, it returns from the whole callback invocation, so
the remaining documents of the batch are not processed (the result is the
unchanged state whatever the rest of the batch holds); the refusal branch
is the only one that returns early, and every other branch continues with
the remaining documents. -/
theorem refusal_aborts_snapshot_batch (s : SupState) (sp : Option Nat)
    (ok : Bool) (rest : List (Doc × Option Nat × Bool))
    (hstream : s.streamingEnabled = true) (hmc : s.motionEnabled = false) :
    on_doc_snapshot ((Doc.settings true, sp, ok) :: rest) s = s
    ∧ (∀ (d : Doc) (sp2 : Option Nat) (ok2 : Bool) (t : SupState),
        (handle_doc d sp2 ok2 t).2 = true ↔
          d = Doc.settings true ∧ t.motionEnabled = false
            ∧ t.streamingEnabled = true)
    ∧ (∀ (d : Doc) (sp2 : Option Nat) (ok2 : Bool) (t : SupState)
        (rest2 : List (Doc × Option Nat × Bool)),
        (handle_doc d sp2 ok2 t).2 = false →
          on_doc_snapshot ((d, sp2, ok2) :: rest2) t
            = on_doc_snapshot rest2 (handle_doc d sp2 ok2 t).1) := by
  refine ⟨?_, ?_, ?_⟩
  · simp [on_doc_snapshot, handle_doc, hstream, hmc]
  · intro d sp2 ok2 t
    cases d <;>
      simp only [handle_doc] <;> (try split_ifs) <;> simp_all
  · intro d sp2 ok2 t rest2 hret
    simp [on_doc_snapshot, hret]

theorem refusal_aborts_snapshot_batch_witness :
    let s : SupState :=
      { cameraProc := some 2, updaterProc := none, motionProc := none
        streamingEnabled := true, appOpen := false, motionEnabled := false
        pausedByStream := false }
    on_doc_snapshot ((Doc.settings true, some 3, true)
      :: [(Doc.appOpen true, some 4, true)]) s = s :=
  (refusal_aborts_snapshot_batch _ (some 3) true
    [(Doc.appOpen true, some 4, true)] rfl rfl).1

/-- C2 counterexample: after a motion-capture pause by streaming the local
motion flag is already clear, so a motion-capture-enabled true→false
document matches no branch — the paused flag is NOT cleared, and the later
streaming-disable DOES automatically restart motion capture, contradicting
the claim's "clears paused-by-conflict ... including the state where
motion-capture is currently paused by streaming, so no automatic restart
occurs afterwards". -/
theorem pause_resume_counterexample :
    (run [Event.snapshot [(Doc.settings true, some 1, true)],
          Event.snapshot [(Doc.streaming true, some 2, true)]]
        initState).pausedByStream = true
    ∧ (run [Event.snapshot [(Doc.settings true, some 1, true)],
            Event.snapshot [(Doc.streaming true, some 2, true)]]
          initState).motionEnabled = false
    ∧ (run [Event.snapshot [(Doc.settings true, some 1, true)],
            Event.snapshot [(Doc.streaming true, some 2, true)],
            Event.snapshot [(Doc.settings false, some 3, true)]]
          initState).pausedByStream = true
    ∧ (run [Event.snapshot [(Doc.settings true, some 1, true)],
            Event.snapshot [(Doc.streaming true, some 2, true)],
            Event.snapshot [(Doc.settings false, some 3, true)],
            Event.snapshot [(Doc.streaming false, some 4, true)]]
          initState).motionProc = some 4
    ∧ (run [Event.snapshot [(Doc.settings true, some 1, true)],
            Event.snapshot [(Doc.streaming true, some 2, true)],
            Event.snapshot [(Doc.settings false, some 3, true)],
            Event.snapshot [(Doc.streaming false, some 4, true)]]
          initState).motionEnabled = true := by
  decide

/-- C2 (amended): pause and resume behave as claimed when the
`stop_process` calls involved succeed (the source clears handle and flag
only inside `if stop_process(...):`) — a streaming enable with motion
capture running stops it and sets paused-by-conflict (the pause flag is
set even when the stop itself fails); a later streaming disable with a
successful stop stops streaming, restarts motion capture and clears the
flag.  The motion-capture disable clears the pause flag and stops the
process only when the local motion flag is set; in the paused-by-streaming
state the local flag is already clear, so the disable document changes
nothing whatever its stop oracle (and the pending automatic restart stays
armed). -/
theorem pause_resume_correctness (s : SupState) (sp : Option Nat)
    (p : Nat) :
    (s.motionEnabled = true → s.streamingEnabled = false →
      (handle_doc (Doc.streaming true) sp true s).1.motionProc = none
      ∧ (handle_doc (Doc.streaming true) sp true s).1.motionEnabled = false
      ∧ ∀ ok : Bool,
          (handle_doc (Doc.streaming true) sp ok s).1.pausedByStream = true)
    ∧ (s.streamingEnabled = true → s.pausedByStream = true →
      (handle_doc (Doc.streaming false) (some p) true s).1 =
        { s with cameraProc := none, streamingEnabled := false
                 motionProc := some p, motionEnabled := true
                 pausedByStream := false })
    ∧ (s.motionEnabled = true →
      (handle_doc (Doc.settings false) sp true s).1 =
        { s with motionProc := none, motionEnabled := false
                 pausedByStream := false })
    ∧ (∀ ok : Bool, s.motionEnabled = false →
      (handle_doc (Doc.settings false) sp ok s).1 = s) := by
  rcases s with ⟨cp, up, mp, se, ao, me, pb⟩
  refine ⟨?_, ?_, ?_, ?_⟩
  · intro h1 h2
    refine ⟨?_, ?_, ?_⟩ <;> try intro ok
    all_goals
      cases sp <;>
        simp_all [handle_doc, stop_motion_capture, start_camera_server]
  · intro h1 h2
    cases sp <;>
      simp_all [handle_doc, stop_camera_server, start_motion_capture]
  · intro h1
    cases sp <;>
      simp_all [handle_doc, stop_motion_capture]
  · intro ok h1
    cases sp <;>
      simp_all [handle_doc]

theorem pause_resume_correctness_witness :
    let s : SupState :=
      { cameraProc := some 2, updaterProc := none, motionProc := none
        streamingEnabled := true, appOpen := false, motionEnabled := false
        pausedByStream := true }
    (handle_doc (Doc.streaming false) (some 7) true s).1 =
      { s with cameraProc := none, streamingEnabled := false
               motionProc := some 7, motionEnabled := true
               pausedByStream := false } :=
  (pause_resume_correctness _ none 7).2.1 rfl rfl

/-- C4 counterexample: in the reachable state where motion capture was
paused by streaming, streaming is running, yet handling a motion-capture
enable leaves paused-by-conflict true (not false, as the claim demands for
every streaming-running state) and the subsequent streaming-disable DOES
start motion capture. -/
theorem conflicting_enable_counterexample :
    (run [Event.snapshot [(Doc.settings true, some 1, true)],
          Event.snapshot [(Doc.streaming true, some 2, true)]]
        initState).streamingEnabled = true
    ∧ (run [Event.snapshot [(Doc.settings true, some 1, true)],
            Event.snapshot [(Doc.streaming true, some 2, true)],
            Event.snapshot [(Doc.settings true, some 3, true)]]
          initState).pausedByStream = true
    ∧ (run [Event.snapshot [(Doc.settings true, some 1, true)],
            Event.snapshot [(Doc.streaming true, some 2, true)],
            Event.snapshot [(Doc.settings true, some 3, true)],
            Event.snapshot [(Doc.streaming false, some 4, true)]]
          initState).motionProc = some 4 := by
  decide

/-- C4 (amended): while streaming runs, a motion-capture enable is
dropped: the handler returns with the state completely unchanged whatever
the oracles (nothing started, no exception — the handler is total —, no
pending-request state recorded, paused-by-conflict keeps its value).
When paused-by-conflict was false, a subsequent streaming-disable never
starts motion capture whatever its stop outcome, and when its
`stop_process` succeeds it leaves exactly the state with streaming
stopped; when motion capture had been paused by streaming earlier, that
pause — not the dropped enable — makes the later streaming-disable
restart it. -/
theorem conflicting_enable_dropped (s : SupState) (sp sp2 : Option Nat)
    (hstream : s.streamingEnabled = true) (hmc : s.motionEnabled = false) :
    (∀ ok : Bool, handle_doc (Doc.settings true) sp ok s = (s, true))
    ∧ (s.pausedByStream = false →
        (∀ ok : Bool,
          (handle_doc (Doc.streaming false) sp2 ok s).1.motionProc
            = s.motionProc
          ∧ (handle_doc (Doc.streaming false) sp2 ok s).1.motionEnabled
            = s.motionEnabled)
        ∧ (handle_doc (Doc.streaming false) sp2 true s).1 =
            { s with cameraProc := none, streamingEnabled := false }) := by
  rcases s with ⟨cp, up, mp, se, ao, me, pb⟩
  constructor
  · intro ok
    simp_all [handle_doc]
  · intro hpb
    constructor
    · intro ok
      cases ok <;> cases sp2 <;>
        simp_all [handle_doc, stop_camera_server, start_motion_capture]
    · cases sp2 <;> simp_all [handle_doc, stop_camera_server]

theorem conflicting_enable_dropped_witness :
    let s : SupState :=
      { cameraProc := some 2, updaterProc := none, motionProc := none
        streamingEnabled := true, appOpen := false, motionEnabled := false
        pausedByStream := false }
    handle_doc (Doc.settings true) (some 3) true s = (s, true)
    ∧ (handle_doc (Doc.streaming false) (some 4) true s).1 =
        { s with cameraProc := none, streamingEnabled := false } :=
  ⟨(conflicting_enable_dropped _ (some 3) (some 4) rfl rfl).1 true,
   ((conflicting_enable_dropped _ (some 3) (some 4) rfl rfl).2 rfl).2⟩

/-- C5 counterexample: when the spawn of the initial streaming enable
fails, the handle is null but the enabled flag — the code's desired-state
— is still false (it is set only on a successful spawn), and the next
crash-check issues no restart and leaves the state untouched, contradicting
"desired-state remains as requested ... the next crash-check invocation
attempts the start again". -/
theorem start_failure_retry_counterexample :
    (run [Event.snapshot [(Doc.streaming true, none, true)]]
        initState).cameraProc = none
    ∧ (run [Event.snapshot [(Doc.streaming true, none, true)]]
          initState).streamingEnabled = false
    ∧ (check_processes_log (fun _ => false) (some 9) (some 9) (some 9)
        (run [Event.snapshot [(Doc.streaming true, none, true)]] initState)).2 = []
    ∧ check_processes (fun _ => false) (some 9) (some 9) (some 9)
        (run [Event.snapshot [(Doc.streaming true, none, true)]] initState)
      = run [Event.snapshot [(Doc.streaming true, none, true)]] initState := by
  decide

/-- C5 (amended): a start failure leaves the process handle null and the
enabled flag at its previous value (the flag is set only on success).
Hence when the failed start was a crash-check restart — the flag already
true — the next crash-check attempts the start again, installing the new
spawn result; but when the failed start was the initial enable transition
the flag is still false and the crash check issues no camera restart. -/
theorem start_failure_retry (alive : Nat → Bool)
    (spc spu spm : Option Nat) (s : SupState) :
    (start_camera_server none s = { s with cameraProc := none }
      ∧ start_system_updater none s = { s with updaterProc := none }
      ∧ start_motion_capture none s = { s with motionProc := none })
    ∧ (s.streamingEnabled = true → s.cameraProc = none →
        Service.camera ∈ (check_processes_log alive spc spu spm s).2
        ∧ (check_processes alive spc spu spm s).cameraProc = spc)
    ∧ (s.appOpen = true → s.updaterProc = none →
        Service.updater ∈ (check_processes_log alive spc spu spm s).2
        ∧ (check_processes alive spc spu spm s).updaterProc = spu)
    ∧ (s.motionEnabled = true → s.motionProc = none →
        s.pausedByStream = false →
        Service.motion ∈ (check_processes_log alive spc spu spm s).2
        ∧ (check_processes alive spc spu spm s).motionProc = spm)
    ∧ (s.streamingEnabled = false →
        Service.camera ∉ (check_processes_log alive spc spu spm s).2) := by
  refine ⟨⟨rfl, rfl, rfl⟩, ?_, ?_, ?_, ?_⟩
  · intro h1 h2
    rw [check_processes_log_restarts, check_processes_state]
    simp [h1, h2, is_process_alive]
  · intro h1 h2
    rw [check_processes_log_restarts, check_processes_state]
    simp [h1, h2, is_process_alive]
  · intro h1 h2 h3
    rw [check_processes_log_restarts, check_processes_state]
    simp [h1, h2, h3, is_process_alive]
  · intro h1
    rw [check_processes_log_restarts]
    simp [h1]

theorem start_failure_retry_witness :
    let s : SupState :=
      { cameraProc := none, updaterProc := none, motionProc := none
        streamingEnabled := true, appOpen := false, motionEnabled := false
        pausedByStream := false }
    Service.camera ∈
      (check_processes_log (fun _ => false) (some 9) none none s).2
    ∧ (check_processes (fun _ => false) (some 9) none none s).cameraProc
      = some 9 :=
  (start_failure_retry (fun _ => false) (some 9) none none _).2.1 rfl rfl

/-- C6: Stop protocol — with the target pid known and the pid file present
and removable: a successful SIGTERM is followed by the 1 s grace wait,
SIGKILL exactly when the target is still alive afterwards, and then the
pid-file removal, with success reported; when SIGTERM fails with ESRCH
(process already gone) the pid file is still removed and the call still
reports success rather than failure. -/
theorem stop_protocol (pid : Nat) (env : StopEnv)
    (hfile : env.pidFileExists = true) (hrm : env.removeOk = true) :
    (env.sigtermResult = KillResult.ok →
      stop_process (some pid) env =
        (true, [StopAct.sigterm pid, StopAct.sleep1] ++
          (if env.stillAliveAfterTerm then [StopAct.sigkill pid] else []) ++
          [StopAct.removePidFile]))
    ∧ (env.sigtermResult = KillResult.esrch →
      stop_process (some pid) env =
        (true, [StopAct.sigterm pid, StopAct.removePidFile])) := by
  constructor <;> intro hsig <;>
    simp [stop_process, remove_pid_file, hsig, hfile, hrm]

theorem stop_protocol_witness :
    let env : StopEnv :=
      { sigtermResult := KillResult.esrch, stillAliveAfterTerm := false
        pidFileExists := true, pidFilePid := none, removeOk := true }
    stop_process (some 11) env =
      (true, [StopAct.sigterm 11, StopAct.removePidFile]) :=
  (stop_protocol 11 _ rfl rfl).2 rfl

/-- C9 counterexample: with the capture succeeding and the upload failing,
`take_snapshot` still replies `'S'` (0x53): `upload_snapshot` swallows its
own errors, so the status byte reflects only the capture — refuting the
claim's "'F' (0x46) otherwise" for a failed capture-and-upload. -/
theorem snapshot_reply_counterexample :
    take_snapshot
        { captureResult := some [1], haveFirebase := true
          uploadOk := false, sendOk := true } =
      [SnapAct.lockAcquire, SnapAct.captureAttempt,
       SnapAct.uploadAttempt false, SnapAct.lockRelease,
       SnapAct.replySent (send_packet [83])] := by
  decide

/-- C9 (amended): every `take_snapshot` invocation attempts exactly one
confirmation reply; when the send succeeds the last action is a
length-prefixed reply whose payload is the single byte `'S'` (0x53) iff
the capture produced a nonempty frame — upload failures are swallowed
inside `upload_snapshot` and still yield `'S'` — and `'F'` (0x46)
otherwise; a send failure is swallowed, the invocation still completing;
and the reply step comes immediately after the capture-lock release. -/
theorem snapshot_reply (env : SnapEnv) :
    ((take_snapshot env).countP isReplyAct = 1)
    ∧ (env.sendOk = true →
        (take_snapshot env).getLast? =
          some (SnapAct.replySent (send_packet
            (if captureOk env.captureResult then [83] else [70]))))
    ∧ (env.sendOk = false →
        (take_snapshot env).getLast? = some SnapAct.replyFailedSwallowed)
    ∧ ((take_snapshot env).dropLast.getLast? = some SnapAct.lockRelease) := by
  rcases env with ⟨cr, hf, uo, so⟩
  cases hok : captureOk cr <;> cases hf <;> cases uo <;> cases so <;>
    simp_all [take_snapshot, isReplyAct, List.countP_append,
      List.countP_cons, List.getLast?_append, List.dropLast_append]

theorem snapshot_reply_witness :
    let env : SnapEnv :=
      { captureResult := some [1], haveFirebase := false
        uploadOk := true, sendOk := true }
    (take_snapshot env).countP isReplyAct = 1
    ∧ (take_snapshot env).getLast? =
        some (SnapAct.replySent (send_packet [83])) :=
  ⟨(snapshot_reply _).1, (snapshot_reply _).2.1 rfl⟩

end Birdfeeder
